import Mathlib

/-!
Verification of the client-side communication layer:
the reconnecting WebSocket client (`frontend/lib/websocket.ts`),
the retrying HTTP API client (`frontend/lib/api.ts`),
and the notification service (`frontend/lib/notifications.ts`).

JavaScript values appearing on the wire are modelled by `JsValue`
(JSON values; absence of an object field plays the role of `undefined`
and is modelled with `Option`). Stateful client code is modelled by explicit
state records and pure step functions.
-/

/-- A JSON value as produced by `JSON.parse`.  Numbers are modelled as
integers (every numeric literal appearing in this layer is integral). -/
inductive JsValue where
  | null : JsValue
  | bool (b : Bool) : JsValue
  | num (n : Int) : JsValue
  | str (s : String) : JsValue
  | arr (elems : List JsValue) : JsValue
  | obj (fields : List (String × JsValue)) : JsValue

mutual

/-- Decidable equality for `JsValue` (spelled out because `deriving` does not
handle the nested `List` occurrences). -/
def jsDecEq : (a b : JsValue) → Decidable (a = b)
  | .null, .null => isTrue rfl
  | .bool x, .bool y =>
    if h : x = y then isTrue (by rw [h]) else isFalse (fun hh => h (JsValue.bool.inj hh))
  | .num x, .num y =>
    if h : x = y then isTrue (by rw [h]) else isFalse (fun hh => h (JsValue.num.inj hh))
  | .str x, .str y =>
    if h : x = y then isTrue (by rw [h]) else isFalse (fun hh => h (JsValue.str.inj hh))
  | .arr xs, .arr ys =>
    match jsDecEqElems xs ys with
    | isTrue h => isTrue (by rw [h])
    | isFalse h => isFalse (fun hh => h (JsValue.arr.inj hh))
  | .obj fs, .obj gs =>
    match jsDecEqFields fs gs with
    | isTrue h => isTrue (by rw [h])
    | isFalse h => isFalse (fun hh => h (JsValue.obj.inj hh))
  | .null, .bool _ => isFalse (fun h => JsValue.noConfusion h)
  | .null, .num _ => isFalse (fun h => JsValue.noConfusion h)
  | .null, .str _ => isFalse (fun h => JsValue.noConfusion h)
  | .null, .arr _ => isFalse (fun h => JsValue.noConfusion h)
  | .null, .obj _ => isFalse (fun h => JsValue.noConfusion h)
  | .bool _, .null => isFalse (fun h => JsValue.noConfusion h)
  | .bool _, .num _ => isFalse (fun h => JsValue.noConfusion h)
  | .bool _, .str _ => isFalse (fun h => JsValue.noConfusion h)
  | .bool _, .arr _ => isFalse (fun h => JsValue.noConfusion h)
  | .bool _, .obj _ => isFalse (fun h => JsValue.noConfusion h)
  | .num _, .null => isFalse (fun h => JsValue.noConfusion h)
  | .num _, .bool _ => isFalse (fun h => JsValue.noConfusion h)
  | .num _, .str _ => isFalse (fun h => JsValue.noConfusion h)
  | .num _, .arr _ => isFalse (fun h => JsValue.noConfusion h)
  | .num _, .obj _ => isFalse (fun h => JsValue.noConfusion h)
  | .str _, .null => isFalse (fun h => JsValue.noConfusion h)
  | .str _, .bool _ => isFalse (fun h => JsValue.noConfusion h)
  | .str _, .num _ => isFalse (fun h => JsValue.noConfusion h)
  | .str _, .arr _ => isFalse (fun h => JsValue.noConfusion h)
  | .str _, .obj _ => isFalse (fun h => JsValue.noConfusion h)
  | .arr _, .null => isFalse (fun h => JsValue.noConfusion h)
  | .arr _, .bool _ => isFalse (fun h => JsValue.noConfusion h)
  | .arr _, .num _ => isFalse (fun h => JsValue.noConfusion h)
  | .arr _, .str _ => isFalse (fun h => JsValue.noConfusion h)
  | .arr _, .obj _ => isFalse (fun h => JsValue.noConfusion h)
  | .obj _, .null => isFalse (fun h => JsValue.noConfusion h)
  | .obj _, .bool _ => isFalse (fun h => JsValue.noConfusion h)
  | .obj _, .num _ => isFalse (fun h => JsValue.noConfusion h)
  | .obj _, .str _ => isFalse (fun h => JsValue.noConfusion h)
  | .obj _, .arr _ => isFalse (fun h => JsValue.noConfusion h)

/-- Decidable equality for lists of values. -/
def jsDecEqElems : (a b : List JsValue) → Decidable (a = b)
  | [], [] => isTrue rfl
  | [], _ :: _ => isFalse (fun h => List.noConfusion h)
  | _ :: _, [] => isFalse (fun h => List.noConfusion h)
  | x :: xs, y :: ys =>
    match jsDecEq x y, jsDecEqElems xs ys with
    | isTrue h1, isTrue h2 => isTrue (by rw [h1, h2])
    | isFalse h1, _ => isFalse (fun hh => h1 (List.cons.inj hh).1)
    | _, isFalse h2 => isFalse (fun hh => h2 (List.cons.inj hh).2)

/-- Decidable equality for object field lists. -/
def jsDecEqFields : (a b : List (String × JsValue)) → Decidable (a = b)
  | [], [] => isTrue rfl
  | [], _ :: _ => isFalse (fun h => List.noConfusion h)
  | _ :: _, [] => isFalse (fun h => List.noConfusion h)
  | (k, v) :: xs, (k2, v2) :: ys =>
    match String.decEq k k2, jsDecEq v v2, jsDecEqFields xs ys with
    | isTrue h0, isTrue h1, isTrue h2 => isTrue (by rw [h0, h1, h2])
    | isFalse h0, _, _ => isFalse (fun hh => h0 (congrArg Prod.fst (List.cons.inj hh).1))
    | _, isFalse h1, _ => isFalse (fun hh => h1 (congrArg Prod.snd (List.cons.inj hh).1))
    | _, _, isFalse h2 => isFalse (fun hh => h2 (List.cons.inj hh).2)

end

instance : DecidableEq JsValue := jsDecEq

/-- JavaScript truthiness of a defined value: `null`, `false`, `0` and `""`
are falsy; every other number/string and every array/object is truthy. -/
def truthy : JsValue → Bool
  | .null => false
  | .bool b => b
  | .num n => n != 0
  | .str s => s != ""
  | .arr _ => true
  | .obj _ => true

/-- Field lookup on an object built by `JSON.parse`: when a key is duplicated
in the source text the last occurrence wins, so lookup takes the last
matching field. -/
def lookupLast : List (String × JsValue) → String → Option JsValue
  | [], _ => none
  | (k, v) :: rest, key =>
    match lookupLast rest key with
    | some r => some r
    | none => if k = key then some v else none

/-- `getField v k` models the JavaScript property access `v.k` on a value
already known not to be `null`: an object yields its field, any other
(boxed) primitive or array yields `undefined`, modelled as `none`.  Access
on `null` itself throws a TypeError instead — that case is modelled by
`jsAccess`, and guarded call sites (such as `hasMessage` in api.ts, which
short-circuits on a falsy value before the access) never reach it. -/
def getField : JsValue → String → Option JsValue
  | .obj fields, k => lookupLast fields k
  | _, _ => none

/-- JavaScript property access `v.k` including the throwing case: on `null`
the access throws a TypeError (`Except.error`); on every other value it
yields `getField v k`. -/
def jsAccess : JsValue → String → Except Unit (Option JsValue)
  | .null, _ => .error ()
  | v, k => .ok (getField v k)

/-- String escaping as performed by `JSON.stringify` (the characters
relevant to this development: quote, backslash and common control chars). -/
def jsEscapeChar (c : Char) : String :=
  if c = '\"' then "\\\""
  else if c = '\\' then "\\\\"
  else if c = '\n' then "\\n"
  else if c = '\r' then "\\r"
  else if c = '\t' then "\\t"
  else String.singleton c

/-- A JSON string literal, quoted and escaped as by `JSON.stringify`. -/
def jsonQuote (s : String) : String :=
  "\"" ++ String.join (s.data.map jsEscapeChar) ++ "\""

mutual

/-- Serialization of a value as by `JSON.stringify` (no whitespace,
fields in insertion order). -/
def JsValue.stringify : JsValue → String
  | .null => "null"
  | .bool b => cond b "true" "false"
  | .num n => toString n
  | .str s => jsonQuote s
  | .arr elems => "[" ++ stringifyElems elems ++ "]"
  | .obj fields => "\x7b" ++ stringifyFields fields ++ "\x7d"

/-- Comma-separated serialization of array elements. -/
def stringifyElems : List JsValue → String
  | [] => ""
  | [v] => v.stringify
  | v :: rest => v.stringify ++ "," ++ stringifyElems rest

/-- Comma-separated serialization of object fields. -/
def stringifyFields : List (String × JsValue) → String
  | [] => ""
  | [(k, v)] => jsonQuote k ++ ":" ++ v.stringify
  | (k, v) :: rest => jsonQuote k ++ ":" ++ v.stringify ++ "," ++ stringifyFields rest

end

/-! ### WebSocketClient message dispatch (`socket.onmessage`, websocket.ts) -/

/-- The argument handed to a message handler: either a parsed JSON value or,
on parse failure, the raw string payload. -/
inductive Arg where
  | json (v : JsValue) : Arg
  | raw (s : String) : Arg
deriving DecidableEq

/-- One handler invocation: which registered type tag fires, and with what
argument.  Every handler in the set registered under that tag receives the
same argument, so one entry per tag suffices. -/
abbrev Delivery := String × Arg

/-- `message.data || message`: the argument for type-specific handlers — the
`data` field when present and truthy, otherwise the whole parsed value.
Only reached for a non-null parsed value (on `null` the earlier
`message.type` access has already thrown). -/
def extractedData (m : JsValue) : JsValue :=
  match getField m "data" with
  | some v => if truthy v then v else m
  | none => m

/-- `type !== 'message'` (strict comparison against the string tag). -/
def isMessageTag : JsValue → Bool
  | .str s => s == "message"
  | _ => false

/-- The `socket.onmessage` handler of `WebSocketClient`.  `reg` is the set of
type tags with at least one registered handler (`messageHandlers` keys);
`parsed` is the result of `JSON.parse` on the payload (`none` on a parse
error) and `raw` the raw payload.  Returns, in invocation order, which tags
fire with which argument.  Both a parse failure and the TypeError thrown by
`message.type` when the payload parses to `null` land in the same `catch`,
which hands the raw payload to the `"message"` handlers. -/
def onMessage (reg : List String) (parsed : Option JsValue) (raw : String) : List Delivery :=
  match parsed with
  | some m =>
    match jsAccess m "type" with
    | .error _ => if "message" ∈ reg then [("message", .raw raw)] else []
    | .ok tf =>
      let t : JsValue :=
        match tf with
        | some v => if truthy v then v else .str "message"
        | none => .str "message"
      let typed : List Delivery :=
        match t with
        | .str s => if s ∈ reg then [(s, .json (extractedData m))] else []
        | _ => []
      let generic : List Delivery :=
        if !isMessageTag t ∧ "message" ∈ reg then [("message", .json m)] else []
      typed ++ generic
  | none => if "message" ∈ reg then [("message", .raw raw)] else []

/-- Dispatch as worded by the claim (C3): `type` defaults to `"message"`
only when the parsed value has *no* `type` field, and the handler argument
defaults to the whole parsed value only when the envelope has *no* `data`
field. -/
def dispatchPerClaim (reg : List String) (m : JsValue) : List Delivery :=
  let t : JsValue := (getField m "type").getD (.str "message")
  let d : JsValue := (getField m "data").getD m
  (match t with
   | .str s => if s ∈ reg then [(s, .json d)] else []
   | _ => [])
  ++ (if !isMessageTag t ∧ "message" ∈ reg then [("message", .json m)] else [])

/-- Dispatch as worded by the amended claim for a payload whose parsed value
is not `null` (a `null` parse result takes the catch path instead): the
defaults apply when the field is absent *or falsy*. -/
def dispatchPerClaimAmended (reg : List String) (m : JsValue) : List Delivery :=
  let tv : JsValue := (getField m "type").getD .null
  let t : JsValue := if truthy tv then tv else .str "message"
  let dv : JsValue := (getField m "data").getD .null
  let d : JsValue := if truthy dv then dv else m
  (match t with
   | .str s => if s ∈ reg then [(s, .json d)] else []
   | _ => [])
  ++ (if !isMessageTag t ∧ "message" ∈ reg then [("message", .json m)] else [])

/-! ### WebSocketClient send (websocket.ts) -/

/-- `WebSocket.readyState` values. -/
inductive ReadyState where
  | CONNECTING : ReadyState
  | OPEN : ReadyState
  | CLOSING : ReadyState
  | CLOSED : ReadyState
deriving DecidableEq

/-- The no-type serialization in `send`: a string payload is transmitted
as-is, anything else is JSON-serialized. -/
def serializeVerbatim : JsValue → String
  | .str s => s
  | v => v.stringify

/-- `WebSocketClient.send(data, type?)`.  `socket` is the current transport
(`none` when no socket exists) with its `readyState`.  Returns the
transmitted wire string (`none` when nothing is transmitted) and the boolean
result of `send`. -/
def wsSend (socket : Option ReadyState) (payload : JsValue) (ty : Option String) :
    Option String × Bool :=
  if socket = some ReadyState.OPEN then
    let message :=
      match ty with
      | some t =>
        if t = "" then serializeVerbatim payload
        else JsValue.stringify (.obj [("type", .str t), ("data", payload)])
      | none => serializeVerbatim payload
    (some message, true)
  else (none, false)

/-! ### WebSocketClient connection state machine (websocket.ts) -/

/-- The options stored by the `WebSocketClient` constructor
(`{reconnectAttempts: 5, reconnectInterval: 2000, ...options}`). -/
structure WsOptions where
  reconnectAttempts : Nat
  reconnectInterval : Nat
deriving DecidableEq

/-- Options as passed by the caller: `none` models an absent field; the
constructor spread replaces only absent fields with the defaults. -/
structure WsUserOptions where
  reconnectAttempts : Option Nat
  reconnectInterval : Option Nat
deriving DecidableEq

/-- The `WebSocketClient` constructor's option merge. -/
def mkWsOptions (u : WsUserOptions) : WsOptions :=
  { reconnectAttempts := u.reconnectAttempts.getD 5
    reconnectInterval := u.reconnectInterval.getD 2000 }

/-- `n || d` on a stored numeric option (0 is falsy in JavaScript). -/
def effNat (n d : Nat) : Nat := if n = 0 then d else n

/-- The mutable fields of a `WebSocketClient` instance.  `socket` is the
current transport and its `readyState` (`none` when no socket object
exists); `reconnectTimer` records whether a reconnect timer is pending. -/
structure WsState where
  socket : Option ReadyState
  reconnectCount : Nat
  reconnectTimer : Bool
  isConnecting : Bool
  manualClose : Bool
deriving DecidableEq

/-- A freshly constructed client. -/
def wsInit : WsState := ⟨none, 0, false, false, false⟩

/-- `WebSocketClient.attemptReconnect`.  Returns the new state and, when a
reconnect was scheduled, `some delay` for the timer it set. -/
def attemptReconnect (o : WsOptions) (s : WsState) : WsState × Option Nat :=
  if s.manualClose ∨ s.isConnecting ∨ s.reconnectTimer then (s, none)
  else if effNat o.reconnectAttempts 5 ≤ s.reconnectCount then (s, none)
  else ({ s with reconnectCount := s.reconnectCount + 1, reconnectTimer := true },
        some (effNat o.reconnectInterval 2000))

/-- `WebSocketClient.connect` up to the creation of the new transport:
a no-op when the socket is already open or connecting, or when another
`connect` is in flight; otherwise clears `manualClose`, sets `isConnecting`
and creates a fresh socket in the `CONNECTING` state. -/
def connectStep (s : WsState) : WsState :=
  if s.socket = some ReadyState.OPEN ∨ s.socket = some ReadyState.CONNECTING then s
  else if s.isConnecting then s
  else { s with isConnecting := true, manualClose := false,
                socket := some ReadyState.CONNECTING }

/-- `WebSocketClient.close`: marks the closure as manual, clears any pending
reconnect timer, closes and drops the transport, and clears `isConnecting`. -/
def closeStep (s : WsState) : WsState :=
  { s with manualClose := true, reconnectTimer := false, socket := none,
           isConnecting := false }

/-- The externally triggered transitions of a `WebSocketClient`: the public
`connect`/`close` calls, the transport callbacks `onopen`/`onclose`/`onerror`,
and the firing of a scheduled reconnect timer. -/
inductive WsEvent where
  | connect : WsEvent
  | onOpen : WsEvent
  | onClose : WsEvent
  | onError : WsEvent
  | timerFire : WsEvent
  | close : WsEvent
deriving DecidableEq

/-- One transition of the client.  `onOpen` resets the reconnect counter;
`onClose` attempts a reconnect unless the close was manual; a firing timer
clears itself and calls `connect`; `onError` only ends a pending `connect`. -/
def wsStep (o : WsOptions) (s : WsState) (e : WsEvent) : WsState :=
  match e with
  | .connect => connectStep s
  | .onOpen =>
    { s with isConnecting := false, reconnectCount := 0,
             socket := s.socket.map (fun _ => ReadyState.OPEN) }
  | .onClose =>
    let s1 := { s with isConnecting := false,
                       socket := s.socket.map (fun _ => ReadyState.CLOSED) }
    if s1.manualClose then s1 else (attemptReconnect o s1).1
  | .onError => if s.isConnecting then { s with isConnecting := false } else s
  | .timerFire =>
    if s.reconnectTimer then connectStep { s with reconnectTimer := false } else s
  | .close => closeStep s

/-- Run a sequence of events from a state. -/
def runWs (o : WsOptions) : WsState → List WsEvent → WsState
  | s, [] => s
  | s, e :: es => runWs o (wsStep o s e) es

/-- The number of reconnect attempts scheduled along an event sequence.
A step schedules an attempt exactly when it increments the reconnect
counter (the only increment site is `attemptReconnect`). -/
def schedCount (o : WsOptions) : WsState → List WsEvent → Nat
  | _, [] => 0
  | s, e :: es =>
    (if (wsStep o s e).reconnectCount = s.reconnectCount + 1 then 1 else 0)
    + schedCount o (wsStep o s e) es

/-! ### ApiClient retry/error interceptor (frontend/lib/api.ts) -/

/-- Caller-supplied `ApiClientConfig` (the numeric options; `none` models an
absent field). -/
structure ApiUserConfig where
  timeout : Option Nat
  maxRetries : Option Nat
  retryDelay : Option Nat
deriving DecidableEq

/-- The configuration stored on an `ApiClient` instance. -/
structure ApiConfig where
  timeout : Nat
  maxRetries : Nat
  retryDelay : Nat
deriving DecidableEq

/-- `v || default` on a caller-supplied option: absent or 0 falls back. -/
def orDefault (v : Option Nat) (d : Nat) : Nat :=
  match v with
  | some n => if n = 0 then d else n
  | none => d

/-- The `ApiClient` constructor: `config.timeout || DEFAULT_TIMEOUT`,
`config.maxRetries || MAX_RETRIES`, `config.retryDelay || RETRY_DELAY`. -/
def mkApiClientConfig (u : ApiUserConfig) : ApiConfig :=
  { timeout := orDefault u.timeout 30000
    maxRetries := orDefault u.maxRetries 3
    retryDelay := orDefault u.retryDelay 1000 }

/-- An HTTP response attached to an axios error. -/
structure RespM where
  status : Nat
  data : JsValue
deriving DecidableEq

/-- The `AxiosError` seen by the response interceptor: optional `code`,
optional `response`, whether a `request` object exists, and the error
message. -/
structure AxiosErrorM where
  code : Option String
  response : Option RespM
  request : Bool
  message : String
deriving DecidableEq

/-- The per-request fields the interceptor reads from `error.config`:
the `skipRetry` flag and `_retryCount || 0`. -/
structure ReqM where
  skipRetry : Bool
  retryCount : Nat
deriving DecidableEq

/-- The normalized `ApiError` (message, HTTP status, raw response body). -/
structure ApiErrorM where
  message : String
  status : Nat
  data : Option JsValue
deriving DecidableEq

/-- Outcome of the response interceptor: schedule a retry (with the new
`_retryCount` and the backoff delay), or throw a normalized `ApiError`. -/
inductive InterceptResult where
  | retry (newCount : Nat) (delay : Nat) : InterceptResult
  | fail (e : ApiErrorM) : InterceptResult
deriving DecidableEq

/-- `InterceptResult.retry`? -/
def InterceptResult.isRetry : InterceptResult → Bool
  | .retry _ _ => true
  | .fail _ => false

/-- The retryable-failure test of the interceptor:
`error.code === 'ECONNABORTED' || !error.response ||
 (error.response?.status >= 500 && error.response?.status < 600)`. -/
def isRetryableError (e : AxiosErrorM) : Bool :=
  decide (e.code = some "ECONNABORTED") || e.response.isNone ||
  (match e.response with
   | some r => decide (500 ≤ r.status ∧ r.status < 600)
   | none => false)

/-- `hasMessage(errorData) ? errorData.message : 'API request failed'`. -/
def errMsgOf (d : JsValue) : String :=
  match getField d "message" with
  | some (.str s) => s
  | _ => "API request failed"

/-- The `ApiClient` response-error interceptor. -/
def responseInterceptor (cfg : ApiConfig) (req : ReqM) (err : AxiosErrorM) :
    InterceptResult :=
  if !req.skipRetry && isRetryableError err
      && decide (req.retryCount < effNat cfg.maxRetries 3) then
    .retry (req.retryCount + 1) (effNat cfg.retryDelay 1000 * 2 ^ req.retryCount)
  else
    match err.response with
    | some r => .fail ⟨errMsgOf r.data, r.status, some r.data⟩
    | none =>
      if err.request then .fail ⟨"No response received from server", 0, none⟩
      else .fail ⟨if err.message = "" then "Unknown error occurred" else err.message, 0, none⟩

/-- Outcome of one attempt of the underlying request. -/
inductive AttemptOutcome where
  | success : AttemptOutcome
  | failure (e : AxiosErrorM) : AttemptOutcome
deriving DecidableEq

/-- A whole logical request: each attempt consumes the next outcome; a
failure goes through the interceptor, which either schedules a retry (its
backoff delay is recorded) and reissues the request, or throws.  Returns
the list of backoff delays in order. -/
def runRequest (cfg : ApiConfig) (skipRetry : Bool) :
    Nat → List AttemptOutcome → List Nat
  | _, [] => []
  | _, .success :: _ => []
  | rc, .failure e :: rest =>
    match responseInterceptor cfg ⟨skipRetry, rc⟩ e with
    | .retry rc2 d => d :: runRequest cfg skipRetry rc2 rest
    | .fail _ => []

/-- A 503 response error, as in the C2 scenario. -/
def err503 : AxiosErrorM :=
  ⟨none, some ⟨503, .null⟩, true, "Request failed with status code 503"⟩

/-! ### NotificationService (frontend/lib/notifications.ts) -/

/-- A notification record of the service's cache. -/
structure Notification where
  id : String
  kind : String
  title : String
  text : String
  createdAt : String
  read : Bool
deriving DecidableEq

/-- `cacheLimit` of the service. -/
def cacheLimit : Nat := 50

/-- `NotificationService.handleNotification`: `unshift` the new record to
the front and, when the cache now exceeds `cacheLimit`, `pop` the single
back (oldest) entry. -/
def handleNotification (cache : List Notification) (n : Notification) :
    List Notification :=
  let c := n :: cache
  if cacheLimit < c.length then c.dropLast else c

/-- Set `read := true` on the first cached record with the given id
(`notificationCache.find(n => n.id === id)` followed by the in-place
mutation). -/
def setReadFirst : List Notification → String → List Notification
  | [], _ => []
  | n :: rest, i =>
    if n.id = i then { n with read := true } :: rest
    else n :: setReadFirst rest i

/-- The `mark-read` control payload `{notificationId: id, read: true}`. -/
def markReadPayload (id : String) : JsValue :=
  .obj [("notificationId", .str id), ("read", .bool true)]

/-- `NotificationService.markAsRead(id)`.  `connected` is
`wsClient && wsClient.isConnected()`.  Returns the new cache and, when a
control message was sent, its payload and type tag. -/
def markAsRead (cache : List Notification) (connected : Bool) (id : String) :
    List Notification × Option (JsValue × String) :=
  match cache.find? (fun n => n.id == id) with
  | none => (cache, none)
  | some _ =>
    (setReadFirst cache id,
     if connected then some (markReadPayload id, "mark-read") else none)

/-- Notification number `i` of the C4 scenario. -/
def notifNo (i : Nat) : Notification :=
  ⟨toString i, "info", "t", "m", "c", false⟩

/-! ### Theorems -/

/-- C4: every insertion keeps the cache length at most the capacity 50, the
new notification goes to the front, an insertion into a full cache evicts
exactly the back (least-recently-inserted) entry, and pushing notifications
1..55 into an empty cache leaves 6..55 with 55 at the front. -/
theorem c4_cache_bound (c : List Notification) (n : Notification) :
    (c.length ≤ 50 → (handleNotification c n).length ≤ 50)
    ∧ (handleNotification c n).head? = some n
    ∧ (c.length = 50 → handleNotification c n = n :: c.dropLast)
    ∧ List.foldl handleNotification [] ((List.range 55).map (fun k => notifNo (k + 1))) =
        (List.range 50).map (fun k => notifNo (55 - k)) := by
  refine ⟨?_, ?_, ?_, ?_⟩
  · intro h
    unfold handleNotification cacheLimit
    dsimp only
    split
    · simp only [List.length_dropLast, List.length_cons]
      omega
    · next h2 =>
      simp only [List.length_cons] at h2 ⊢
      omega
  · unfold handleNotification
    cases c with
    | nil => simp [cacheLimit]
    | cons x xs =>
      dsimp only
      split
      · simp [List.dropLast]
      · simp
  · intro h
    unfold handleNotification cacheLimit
    dsimp only
    rw [if_pos (by simp [h])]
    cases c with
    | nil => simp at h
    | cons x xs => simp [List.dropLast]
  · set_option maxRecDepth 8000 in decide

/-- C6: a payload that fails JSON parsing is delivered verbatim (as the raw
string) to the handlers registered under `"message"`, and to no handler
registered under any other type; the parse failure is swallowed (the
dispatch function is total), never surfaced to the caller. -/
theorem c6_malformed_payload (reg : List String) (raw : String) (d : Delivery) :
    d ∈ onMessage reg none raw ↔ ("message" ∈ reg ∧ d = ("message", .raw raw)) := by
  unfold onMessage
  by_cases h : "message" ∈ reg <;> simp [h]

/-- Witness for C4 at a full cache of 50 entries. -/
theorem c4_cache_bound_witness :
    (handleNotification (List.replicate 50 (notifNo 0)) (notifNo 1)).length ≤ 50
    ∧ handleNotification (List.replicate 50 (notifNo 0)) (notifNo 1) =
        notifNo 1 :: (List.replicate 50 (notifNo 0)).dropLast :=
  ⟨(c4_cache_bound (List.replicate 50 (notifNo 0)) (notifNo 1)).1 (by simp),
   (c4_cache_bound (List.replicate 50 (notifNo 0)) (notifNo 1)).2.2.1 (by simp)⟩

/-- Counterexample to C7 as stated: with the connection open,
`send("x", "")` — a call that does supply a type — transmits the payload
verbatim (`"x"`), not the JSON envelope `{type: "", data: "x"}`, because the
code tests the type with a truthiness check and `""` is falsy. -/
theorem c7_counterexample :
    wsSend (some .OPEN) (.str "x") (some "") = (some "x", true)
    ∧ (wsSend (some .OPEN) (.str "x") (some "")).1 ≠
        some (JsValue.stringify (.obj [("type", .str ""), ("data", .str "x")])) := by
  decide

/-- C7 (amended): `send` returns `false` and transmits nothing whenever the
socket is absent or not `OPEN`; when it is `OPEN`, `send(payload, type)` with
a non-empty type transmits the JSON envelope `{type, data: payload}` and
returns `true`, and `send(payload)` with no type (or an empty, falsy type)
transmits the payload verbatim — as-is for a string, otherwise
JSON-serialized — and returns `true`. -/
theorem c7_send_gating (socket : Option ReadyState) (payload : JsValue)
    (ty : Option String) :
    (socket ≠ some ReadyState.OPEN → wsSend socket payload ty = (none, false))
    ∧ (socket = some ReadyState.OPEN → ∀ t, ty = some t → t ≠ "" →
        wsSend socket payload ty =
          (some (JsValue.stringify (.obj [("type", .str t), ("data", payload)])), true))
    ∧ (socket = some ReadyState.OPEN → (ty = none ∨ ty = some "") →
        wsSend socket payload ty = (some (serializeVerbatim payload), true)) := by
  refine ⟨?_, ?_, ?_⟩
  · intro h
    unfold wsSend
    rw [if_neg h]
  · rintro rfl t rfl ht
    unfold wsSend
    simp [ht]
  · rintro rfl h
    rcases h with rfl | rfl <;> simp [wsSend]

/-- Witness for C7: `send("ping")` while `CONNECTING` returns `false` and
transmits nothing; while `OPEN` it transmits `"ping"` verbatim, and
`send("ping", "chat")` transmits the envelope. -/
theorem c7_send_gating_witness :
    wsSend (some ReadyState.CONNECTING) (.str "ping") none = (none, false)
    ∧ wsSend (some ReadyState.OPEN) (.str "ping") none = (some "ping", true)
    ∧ wsSend (some ReadyState.OPEN) (.str "ping") (some "chat") =
        (some "\x7b\"type\":\"chat\",\"data\":\"ping\"\x7d", true) :=
  ⟨(c7_send_gating (some ReadyState.CONNECTING) (.str "ping") none).1 (by decide),
   (c7_send_gating (some ReadyState.OPEN) (.str "ping") none).2.2 rfl (Or.inl rfl),
   ((c7_send_gating (some ReadyState.OPEN) (.str "ping") (some "chat")).2.1
      rfl "chat" rfl (by decide)).trans (by decide)⟩

/-- A stored `reconnectAttempts` of 0 falls back to the default 5 at use
site (`options.reconnectAttempts || 5`). -/
theorem attemptReconnect_attempts_zero (i : Nat) (s : WsState) :
    attemptReconnect ⟨0, i⟩ s = attemptReconnect ⟨5, i⟩ s := rfl

/-- A stored `reconnectInterval` of 0 falls back to the default 2000 at use
site (`options.reconnectInterval || 2000`). -/
theorem attemptReconnect_interval_zero (a : Nat) (s : WsState) :
    attemptReconnect ⟨a, 0⟩ s = attemptReconnect ⟨a, 2000⟩ s := rfl

/-- Step-level version of the two fallbacks. -/
theorem wsStep_attempts_zero (i : Nat) (s : WsState) (e : WsEvent) :
    wsStep ⟨0, i⟩ s e = wsStep ⟨5, i⟩ s e := by
  cases e <;> rfl

/-- Step-level version of the interval fallback. -/
theorem wsStep_interval_zero (a : Nat) (s : WsState) (e : WsEvent) :
    wsStep ⟨a, 0⟩ s e = wsStep ⟨a, 2000⟩ s e := by
  cases e <;> rfl

/-- C10: configuration values equal to 0 are silently replaced by the
defaults, because every fallback is a truthiness (`||`) check: an
`ApiClient` built with `timeout = 0`, `maxRetries = 0`, `retryDelay = 0`
stores the defaults 30000, 3, 1000 (exactly as if the fields were absent),
and a `WebSocketClient` whose stored options are `reconnectAttempts = 0` or
`reconnectInterval = 0` (which is what the constructor stores when the
caller passes 0) reconnects exactly as one configured with 5 attempts at
2000 time-unit intervals. -/
theorem c10_zero_config_defaults :
    mkApiClientConfig ⟨some 0, some 0, some 0⟩ = ⟨30000, 3, 1000⟩
    ∧ mkApiClientConfig ⟨some 0, some 0, some 0⟩ = mkApiClientConfig ⟨none, none, none⟩
    ∧ mkWsOptions ⟨some 0, some 0⟩ = ⟨0, 0⟩
    ∧ (∀ i s, attemptReconnect ⟨0, i⟩ s = attemptReconnect ⟨5, i⟩ s)
    ∧ (∀ a s, attemptReconnect ⟨a, 0⟩ s = attemptReconnect ⟨a, 2000⟩ s)
    ∧ (∀ i s e, wsStep ⟨0, i⟩ s e = wsStep ⟨5, i⟩ s e)
    ∧ (∀ a s e, wsStep ⟨a, 0⟩ s e = wsStep ⟨a, 2000⟩ s e) :=
  ⟨by decide, by decide, by decide,
   attemptReconnect_attempts_zero, attemptReconnect_interval_zero,
   wsStep_attempts_zero, wsStep_interval_zero⟩

/-- Counterexample to C3 as stated, at two payloads.  For the parsed payload
`{"type": "x", "data": 0}` — which has a `data` field — the claim predicts
that the handlers registered under `"x"` receive the data field `0`; the
code instead passes the whole parsed envelope, because `message.data ||
message` treats the falsy value `0` as absent.  And for the payload
`"null"` — which parses as JSON — the claim predicts a normal dispatch of
the parsed value to the `"message"` handlers; the code instead throws a
TypeError at `message.type` and the catch hands those handlers the raw
string `"null"`. -/
theorem c3_counterexample :
    onMessage ["x"] (some (.obj [("type", .str "x"), ("data", .num 0)])) "" ≠
      dispatchPerClaim ["x"] (.obj [("type", .str "x"), ("data", .num 0)])
    ∧ dispatchPerClaim ["x"] (.obj [("type", .str "x"), ("data", .num 0)]) =
        [("x", .json (.num 0))]
    ∧ onMessage ["x"] (some (.obj [("type", .str "x"), ("data", .num 0)])) "" =
        [("x", .json (.obj [("type", .str "x"), ("data", .num 0)]))]
    ∧ onMessage ["message"] (some .null) "null" ≠ dispatchPerClaim ["message"] .null
    ∧ dispatchPerClaim ["message"] .null = [("message", .json .null)]
    ∧ onMessage ["message"] (some .null) "null" = [("message", .raw "null")] := by
  decide

/-- C3 (amended): on a payload that parses to any JSON value other than
`null`, the dispatch invokes every handler registered for the extracted
type — the `type` field when present and truthy, else `"message"` — with
the envelope's `data` field, defaulting to the whole parsed value when the
`data` field is absent *or falsy*; and exactly when the extracted type is
not the string `"message"` it additionally invokes the handlers registered
under `"message"` with the full parsed envelope.  A payload parsing to
`null` makes the unguarded `message.type` access throw inside the `try`, so
it is handled like a parse failure: the raw payload goes verbatim to the
`"message"` handlers only. -/
theorem c3_dispatch_amended (reg : List String) (m : JsValue) (raw : String) :
    (m ≠ .null → onMessage reg (some m) raw = dispatchPerClaimAmended reg m)
    ∧ onMessage reg (some .null) raw =
        (if "message" ∈ reg then [("message", .raw raw)] else []) := by
  constructor
  · intro hm
    have hacc : jsAccess m "type" = .ok (getField m "type") := by
      cases m with
      | null => exact absurd rfl hm
      | bool b => rfl
      | num n => rfl
      | str s => rfl
      | arr elems => rfl
      | obj fields => rfl
    unfold onMessage dispatchPerClaimAmended extractedData
    dsimp only
    rw [hacc]
    cases hT : getField m "type" <;> cases hD : getField m "data" <;>
      simp [hT, hD, truthy, isMessageTag]
  · rfl

/-- Witness for C3 at a non-null envelope with a falsy `data` field and at
the `null` payload. -/
theorem c3_dispatch_amended_witness :
    onMessage ["x"] (some (.obj [("type", .str "x"), ("data", .num 0)])) "" =
      dispatchPerClaimAmended ["x"] (.obj [("type", .str "x"), ("data", .num 0)])
    ∧ onMessage ["message"] (some .null) "null" =
        (if "message" ∈ ["message"] then [("message", .raw "null")] else []) :=
  ⟨(c3_dispatch_amended ["x"] (.obj [("type", .str "x"), ("data", .num 0)]) "").1
     (by decide),
   (c3_dispatch_amended ["message"] (.obj []) "null").2⟩

/-- The constructor never stores a zero `maxRetries`. -/
theorem mk_maxRetries_ne_zero (u : ApiUserConfig) :
    (mkApiClientConfig u).maxRetries ≠ 0 := by
  unfold mkApiClientConfig orDefault
  dsimp only
  cases u.maxRetries with
  | none => decide
  | some n =>
    dsimp only
    split
    · decide
    · assumption

/-- The constructor never stores a zero `retryDelay`. -/
theorem mk_retryDelay_ne_zero (u : ApiUserConfig) :
    (mkApiClientConfig u).retryDelay ≠ 0 := by
  unfold mkApiClientConfig orDefault
  dsimp only
  cases u.retryDelay with
  | none => decide
  | some n =>
    dsimp only
    split
    · decide
    · assumption

/-- `n || d` is the identity on nonzero stored values. -/
theorem effNat_of_ne_zero (n d : Nat) (h : n ≠ 0) : effNat n d = n := by
  unfold effNat
  simp [h]

/-- C2: whenever the response interceptor schedules a retry, the new
`_retryCount` is the old one plus one and stays within the client's
configured `maxRetries`, and the backoff delay before the retry that follows
`k` previous retries is `retryDelay * 2^k`; concretely, with
`maxRetries = 3` and `retryDelay = 1000`, a request failing with 503 twice
and then succeeding is retried after delays of exactly 1000 and 2000 and is
not retried again. -/
theorem c2_retry_policy (u : ApiUserConfig) (req : ReqM) (e : AxiosErrorM)
    (n d : Nat)
    (h : responseInterceptor (mkApiClientConfig u) req e = .retry n d) :
    n = req.retryCount + 1
    ∧ n ≤ (mkApiClientConfig u).maxRetries
    ∧ d = (mkApiClientConfig u).retryDelay * 2 ^ req.retryCount
    ∧ runRequest (mkApiClientConfig ⟨none, some 3, some 1000⟩) false 0
        [.failure err503, .failure err503, .success] = [1000, 2000] := by
  unfold responseInterceptor at h
  split at h
  · next hcond =>
    obtain ⟨h1, h2⟩ := InterceptResult.retry.inj h
    simp only [Bool.and_eq_true, Bool.not_eq_eq_eq_not, Bool.not_true,
      decide_eq_true_eq] at hcond
    obtain ⟨⟨-, -⟩, hlt⟩ := hcond
    rw [effNat_of_ne_zero _ _ (mk_maxRetries_ne_zero u)] at hlt
    rw [effNat_of_ne_zero _ _ (mk_retryDelay_ne_zero u)] at h2
    refine ⟨h1.symm, by omega, h2.symm, by decide⟩
  · exfalso
    rcases he : e.response with - | r
    · rw [he] at h
      dsimp only at h
      split at h <;> exact InterceptResult.noConfusion h
    · rw [he] at h
      exact InterceptResult.noConfusion h

/-- Witness for C2 at the first 503 failure of the concrete scenario. -/
theorem c2_retry_policy_witness :
    1 = 0 + 1
    ∧ 1 ≤ (mkApiClientConfig ⟨none, some 3, some 1000⟩).maxRetries
    ∧ 1000 = (mkApiClientConfig ⟨none, some 3, some 1000⟩).retryDelay * 2 ^ 0
    ∧ runRequest (mkApiClientConfig ⟨none, some 3, some 1000⟩) false 0
        [.failure err503, .failure err503, .success] = [1000, 2000] :=
  c2_retry_policy ⟨none, some 3, some 1000⟩ ⟨false, 0⟩ err503 1 1000 (by decide)

/-- The interceptor's retryable-failure test, unfolded: a connection/timeout
failure (`ECONNABORTED`), a missing response, or a 5xx status. -/
theorem isRetryableError_iff (e : AxiosErrorM) :
    isRetryableError e = true ↔
      (e.code = some "ECONNABORTED" ∨ e.response = none ∨
       ∃ r, e.response = some r ∧ 500 ≤ r.status ∧ r.status < 600) := by
  unfold isRetryableError
  rcases he : e.response with - | r <;> simp [he]

/-- C8: a failed response is retried exactly when `skipRetry` is unset, the
retry count is below the client's `maxRetries`, and the failure is a
connection/timeout failure, has no response payload, or has a 5xx status;
any other failure is not retried and yields the normalized `ApiError`
carrying the message (the body's `message` field when it is a string, else a
generic one), the HTTP status (0 when no response was received) and the raw
response body if any.  In particular a 4xx response (absent a timeout code)
is never retried. -/
theorem c8_error_policy (u : ApiUserConfig) (req : ReqM) (e : AxiosErrorM) :
    ((responseInterceptor (mkApiClientConfig u) req e).isRetry = true ↔
      (req.skipRetry = false
       ∧ req.retryCount < (mkApiClientConfig u).maxRetries
       ∧ (e.code = some "ECONNABORTED" ∨ e.response = none ∨
          ∃ r, e.response = some r ∧ 500 ≤ r.status ∧ r.status < 600)))
    ∧ (∀ r, e.response = some r →
        (responseInterceptor (mkApiClientConfig u) req e).isRetry = false →
        responseInterceptor (mkApiClientConfig u) req e =
          .fail ⟨errMsgOf r.data, r.status, some r.data⟩)
    ∧ (e.response = none → e.request = true →
        (responseInterceptor (mkApiClientConfig u) req e).isRetry = false →
        responseInterceptor (mkApiClientConfig u) req e =
          .fail ⟨"No response received from server", 0, none⟩)
    ∧ (e.response = none → e.request = false →
        (responseInterceptor (mkApiClientConfig u) req e).isRetry = false →
        responseInterceptor (mkApiClientConfig u) req e =
          .fail ⟨if e.message = "" then "Unknown error occurred" else e.message, 0, none⟩)
    ∧ (∀ r, e.response = some r → 400 ≤ r.status → r.status < 500 →
        e.code ≠ some "ECONNABORTED" →
        (responseInterceptor (mkApiClientConfig u) req e).isRetry = false) := by
  have hmr := mk_maxRetries_ne_zero u
  refine ⟨?_, ?_, ?_, ?_, ?_⟩
  · unfold responseInterceptor
    split
    · next hcond =>
      simp only [Bool.and_eq_true, Bool.not_eq_eq_eq_not, Bool.not_true,
        decide_eq_true_eq] at hcond
      obtain ⟨⟨hskip, hretry⟩, hlt⟩ := hcond
      rw [effNat_of_ne_zero _ _ hmr] at hlt
      simp only [InterceptResult.isRetry, true_iff]
      exact ⟨hskip, hlt, (isRetryableError_iff e).mp hretry⟩
    · next hcond =>
      simp only [Bool.and_eq_true, Bool.not_eq_eq_eq_not, Bool.not_true,
        decide_eq_true_eq, not_and] at hcond
      rw [effNat_of_ne_zero _ _ hmr] at hcond
      constructor
      · intro hfalse
        exfalso
        rcases he : e.response with - | r <;> rw [he] at hfalse
        · dsimp only at hfalse
          split at hfalse <;> simp [InterceptResult.isRetry] at hfalse
        · simp [InterceptResult.isRetry] at hfalse
      · rintro ⟨hskip, hlt, hretry⟩
        exact absurd hlt (hcond ⟨hskip, (isRetryableError_iff e).mpr hretry⟩)
  · intro r hr hnot
    unfold responseInterceptor at hnot ⊢
    split at hnot
    · simp [InterceptResult.isRetry] at hnot
    · next hcond =>
      rw [if_neg hcond, hr]
  · intro hr hreq hnot
    unfold responseInterceptor at hnot ⊢
    split at hnot
    · simp [InterceptResult.isRetry] at hnot
    · next hcond =>
      rw [if_neg hcond, hr]
      dsimp only
      rw [if_pos hreq]
  · intro hr hreq hnot
    unfold responseInterceptor at hnot ⊢
    split at hnot
    · simp [InterceptResult.isRetry] at hnot
    · next hcond =>
      rw [if_neg hcond, hr]
      dsimp only
      rw [if_neg (by rw [hreq]; exact Bool.false_ne_true)]
  · intro r hr h400 h500 hcode
    unfold responseInterceptor
    split
    · next hcond =>
      exfalso
      simp only [Bool.and_eq_true, decide_eq_true_eq] at hcond
      obtain ⟨⟨-, hretry⟩, -⟩ := hcond
      rcases (isRetryableError_iff e).mp hretry with hc | hnone | ⟨r2, hr2, hs⟩
      · exact hcode hc
      · rw [hr] at hnone
        exact Option.noConfusion hnone
      · rw [hr] at hr2
        obtain rfl := Option.some.inj hr2
        omega
    · rw [hr]
      rfl

/-- Witness for C8: a 404 with a string `message` body is not retried and is
normalized to an `ApiError` carrying that message, status 404 and the body. -/
theorem c8_error_policy_witness :
    responseInterceptor (mkApiClientConfig ⟨none, none, none⟩) ⟨false, 0⟩
        ⟨none, some ⟨404, .obj [("message", .str "Not found")]⟩, true, ""⟩ =
      .fail ⟨"Not found", 404, some (.obj [("message", .str "Not found")])⟩
    ∧ (responseInterceptor (mkApiClientConfig ⟨none, none, none⟩) ⟨false, 0⟩
        ⟨none, some ⟨404, .obj [("message", .str "Not found")]⟩, true, ""⟩).isRetry = false :=
  ⟨((c8_error_policy ⟨none, none, none⟩ ⟨false, 0⟩
      ⟨none, some ⟨404, .obj [("message", .str "Not found")]⟩, true, ""⟩).2.1
      ⟨404, .obj [("message", .str "Not found")]⟩ rfl (by decide)).trans (by decide),
   (c8_error_policy ⟨none, none, none⟩ ⟨false, 0⟩
      ⟨none, some ⟨404, .obj [("message", .str "Not found")]⟩, true, ""⟩).2.2.2.2
      ⟨404, .obj [("message", .str "Not found")]⟩ rfl (by decide) (by decide) (by decide)⟩

/-- If no cached record has the id, `find` returns nothing. -/
theorem find_none_of_no_id (c : List Notification) (i : String)
    (h : ∀ n ∈ c, n.id ≠ i) : c.find? (fun n => n.id == i) = none := by
  induction c with
  | nil => rfl
  | cons x xs ih =>
    rw [List.find?_cons_of_neg _ (by simp [h x (List.mem_cons_self x xs)])]
    exact ih (fun n hn => h n (List.mem_cons_of_mem x hn))

/-- If some cached record has the id, `find` returns a record. -/
theorem find_some_of_id (c : List Notification) (i : String)
    (h : ∃ n ∈ c, n.id = i) : ∃ m, c.find? (fun n => n.id == i) = some m := by
  induction c with
  | nil => simp at h
  | cons x xs ih =>
    by_cases hx : x.id = i
    · exact ⟨x, List.find?_cons_of_pos _ (by simp [hx])⟩
    · have h2 : ∃ n ∈ xs, n.id = i := by
        rcases h with ⟨n, hn, hni⟩
        rcases List.mem_cons.mp hn with rfl | hmem
        · exact absurd hni hx
        · exact ⟨n, hmem, hni⟩
      obtain ⟨m, hm⟩ := ih h2
      exact ⟨m, by rw [List.find?_cons_of_neg _ (by simp [hx]), hm]⟩

/-- After `setReadFirst` the located record is cached with `read = true`. -/
theorem setReadFirst_mem (c : List Notification) (i : String)
    (h : ∃ n ∈ c, n.id = i) :
    ∃ n ∈ setReadFirst c i, n.id = i ∧ n.read = true := by
  induction c with
  | nil => simp at h
  | cons x xs ih =>
    by_cases hx : x.id = i
    · refine ⟨{ x with read := true }, ?_, hx, rfl⟩
      unfold setReadFirst
      rw [if_pos hx]
      exact List.mem_cons_self _ _
    · have h2 : ∃ n ∈ xs, n.id = i := by
        rcases h with ⟨n, hn, hni⟩
        rcases List.mem_cons.mp hn with rfl | hmem
        · exact absurd hni hx
        · exact ⟨n, hmem, hni⟩
      obtain ⟨n, hn, hni, hnr⟩ := ih h2
      refine ⟨n, ?_, hni, hnr⟩
      unfold setReadFirst
      rw [if_neg hx]
      exact List.mem_cons_of_mem x hn

/-- Marking the same record read twice leaves the cache unchanged. -/
theorem setReadFirst_idem (c : List Notification) (i : String) :
    setReadFirst (setReadFirst c i) i = setReadFirst c i := by
  induction c with
  | nil => rfl
  | cons x xs ih =>
    by_cases hx : x.id = i
    · simp [setReadFirst, hx]
    · simp [setReadFirst, hx, ih]

/-- C9: `markAsRead(id)` is a no-op (cache unchanged, nothing sent) when no
cached record has the id; when one does, it sets `read = true` in place on
that record, sends the `mark-read` control message `{notificationId, read:
true}` exactly when the socket is open, and is idempotent on the cache: a
second call with the same id sends the control message again but leaves the
cache state identical. -/
theorem c9_markAsRead (c : List Notification) (b : Bool) (i : String) :
    ((∀ n ∈ c, n.id ≠ i) → markAsRead c b i = (c, none))
    ∧ ((∃ n ∈ c, n.id = i) →
        (markAsRead c b i).1 = setReadFirst c i
        ∧ (markAsRead c b i).2 =
            (if b then some (markReadPayload i, "mark-read") else none)
        ∧ (∃ n ∈ (markAsRead c b i).1, n.id = i ∧ n.read = true)
        ∧ (markAsRead (markAsRead c b i).1 b i).1 = (markAsRead c b i).1
        ∧ (markAsRead (markAsRead c b i).1 b i).2 = (markAsRead c b i).2) := by
  constructor
  · intro h
    unfold markAsRead
    rw [find_none_of_no_id c i h]
  · intro h
    obtain ⟨m, hm⟩ := find_some_of_id c i h
    have e1 : markAsRead c b i =
        (setReadFirst c i, if b then some (markReadPayload i, "mark-read") else none) := by
      unfold markAsRead
      rw [hm]
    have h2 : ∃ n ∈ setReadFirst c i, n.id = i := by
      obtain ⟨n, hn, hni, -⟩ := setReadFirst_mem c i h
      exact ⟨n, hn, hni⟩
    obtain ⟨m2, hm2⟩ := find_some_of_id _ i h2
    have e2 : markAsRead (setReadFirst c i) b i =
        (setReadFirst (setReadFirst c i) i,
         if b then some (markReadPayload i, "mark-read") else none) := by
      unfold markAsRead
      rw [hm2]
    refine ⟨by rw [e1], by rw [e1], ?_, ?_, ?_⟩
    · rw [e1]
      exact setReadFirst_mem c i h
    · rw [e1]
      dsimp only
      rw [e2]
      dsimp only
      exact setReadFirst_idem c i
    · rw [e1]
      dsimp only
      rw [e2]

/-- Witness for C9: a missing id leaves the cache alone and sends nothing;
`markAsRead("1")` on a cache holding notification 1 with the socket open
sends the `mark-read` control message. -/
theorem c9_markAsRead_witness :
    markAsRead [notifNo 2] true "1" = ([notifNo 2], none)
    ∧ (markAsRead [notifNo 1] true "1").2 = some (markReadPayload "1", "mark-read") :=
  ⟨(c9_markAsRead [notifNo 2] true "1").1 (by decide),
   ((c9_markAsRead [notifNo 1] true "1").2 (by decide)).2.1.trans (by decide)⟩

/-- `attemptReconnect` keeps the counter within the effective maximum. -/
theorem attemptReconnect_count_le (o : WsOptions) (s : WsState)
    (h : s.reconnectCount ≤ effNat o.reconnectAttempts 5) :
    (attemptReconnect o s).1.reconnectCount ≤ effNat o.reconnectAttempts 5 := by
  unfold attemptReconnect
  split
  · exact h
  · split
    · exact h
    · next h2 =>
      dsimp only
      omega

/-- Every step keeps the counter within the effective maximum. -/
theorem wsStep_count_le (o : WsOptions) (s : WsState) (e : WsEvent)
    (h : s.reconnectCount ≤ effNat o.reconnectAttempts 5) :
    (wsStep o s e).reconnectCount ≤ effNat o.reconnectAttempts 5 := by
  cases e with
  | connect =>
    show (connectStep s).reconnectCount ≤ _
    unfold connectStep
    split
    · exact h
    · split
      · exact h
      · exact h
  | onOpen => exact Nat.zero_le _
  | onClose =>
    show (let s1 : WsState := _; if s1.manualClose = true then s1
          else (attemptReconnect o s1).1).reconnectCount ≤ _
    dsimp only
    split
    · exact h
    · exact attemptReconnect_count_le o _ h
  | onError =>
    show (if s.isConnecting = true then _ else s).reconnectCount ≤ _
    split
    · exact h
    · exact h
  | timerFire =>
    show (if s.reconnectTimer = true then connectStep _ else s).reconnectCount ≤ _
    split
    · unfold connectStep
      split
      · exact h
      · split
        · exact h
        · exact h
    · exact h
  | close => exact h

/-- A run of events keeps the counter within the effective maximum. -/
theorem runWs_count_le (o : WsOptions) (es : List WsEvent) (s : WsState)
    (h : s.reconnectCount ≤ effNat o.reconnectAttempts 5) :
    (runWs o s es).reconnectCount ≤ effNat o.reconnectAttempts 5 := by
  induction es generalizing s with
  | nil => exact h
  | cons e es ih => exact ih _ (wsStep_count_le o s e h)

/-- Apart from `onOpen` (which resets it), a step leaves the counter
unchanged or increments it by one. -/
theorem wsStep_count_cases (o : WsOptions) (s : WsState) (e : WsEvent)
    (he : e ≠ WsEvent.onOpen) :
    (wsStep o s e).reconnectCount = s.reconnectCount ∨
    (wsStep o s e).reconnectCount = s.reconnectCount + 1 := by
  cases e with
  | onOpen => exact absurd rfl he
  | connect =>
    left
    show (connectStep s).reconnectCount = _
    unfold connectStep
    split
    · rfl
    · split
      · rfl
      · rfl
  | onClose =>
    show (let s1 : WsState := _; if s1.manualClose = true then s1
          else (attemptReconnect o s1).1).reconnectCount = _ ∨
         (let s1 : WsState := _; if s1.manualClose = true then s1
          else (attemptReconnect o s1).1).reconnectCount = _
    dsimp only
    split
    · exact Or.inl rfl
    · unfold attemptReconnect
      split
      · exact Or.inl rfl
      · split
        · exact Or.inl rfl
        · exact Or.inr rfl
  | onError =>
    left
    show (if s.isConnecting = true then _ else s).reconnectCount = _
    split
    · rfl
    · rfl
  | timerFire =>
    left
    show (if s.reconnectTimer = true then connectStep _ else s).reconnectCount = _
    split
    · unfold connectStep
      split
      · rfl
      · split
        · rfl
        · rfl
    · rfl
  | close => exact Or.inl rfl

/-- Along a run without a successful open, the final counter is the initial
counter plus the number of scheduled reconnect attempts. -/
theorem runWs_count_sched (o : WsOptions) (es : List WsEvent) (s : WsState)
    (h : WsEvent.onOpen ∉ es) :
    (runWs o s es).reconnectCount = s.reconnectCount + schedCount o s es := by
  induction es generalizing s with
  | nil => rfl
  | cons e es ih =>
    have he : e ≠ WsEvent.onOpen := fun hh => h (hh ▸ List.mem_cons_self e es)
    have hes : WsEvent.onOpen ∉ es := fun hh => h (List.mem_cons_of_mem e hh)
    unfold runWs schedCount
    rw [ih _ hes]
    rcases wsStep_count_cases o s e he with hc | hc
    · rw [hc, if_neg (by omega)]
      omega
    · rw [hc, if_pos rfl]
      omega

/-- Counterexample to C1 as stated (at the configured maximum N = 0): the
freshly constructed client — whose reconnect counter 0 has already reached
N — still schedules a reconnect attempt when `attemptReconnect` runs,
because `reconnectAttempts || 5` treats the configured 0 as absent and uses
the default maximum 5 (and `reconnectInterval || 2000` keeps the configured
interval 100). -/
theorem c1_counterexample :
    attemptReconnect ⟨0, 100⟩ wsInit ≠ (wsInit, none)
    ∧ attemptReconnect ⟨0, 100⟩ wsInit = (⟨none, 1, true, false, false⟩, some 100)
    ∧ wsInit.reconnectCount = 0 := by
  decide

/-- C1 (amended to configured maxima N ≥ 1): starting from a fresh client
configured with `reconnectAttempts = N`, any event sequence in which no
connection attempt ever succeeds schedules at most N reconnect attempts;
and once the reconnect counter has reached N, `attemptReconnect` leaves the
state unchanged and schedules nothing, so the client remains closed. -/
theorem c1_reconnect_cap (N i : Nat) (hN : 1 ≤ N) (es : List WsEvent)
    (hes : WsEvent.onOpen ∉ es) (s : WsState) (hs : N ≤ s.reconnectCount) :
    schedCount ⟨N, i⟩ wsInit es ≤ N
    ∧ attemptReconnect ⟨N, i⟩ s = (s, none) := by
  have heff : effNat N 5 = N := effNat_of_ne_zero N 5 (by omega)
  constructor
  · have h1 := runWs_count_le ⟨N, i⟩ es wsInit (Nat.zero_le _)
    have h2 := runWs_count_sched ⟨N, i⟩ es wsInit hes
    rw [h2] at h1
    have h3 : effNat (WsOptions.mk N i).reconnectAttempts 5 = N := heff
    omega
  · unfold attemptReconnect
    split
    · rfl
    · rw [if_pos]
      show effNat N 5 ≤ s.reconnectCount
      omega

/-- Witness for C1 at N = 3, interval 100: the spec's scenario of three
consecutive failed opens schedules exactly 3 ≤ 3 attempts, and from a state
whose counter has reached 3 `attemptReconnect` does nothing. -/
theorem c1_reconnect_cap_witness :
    schedCount ⟨3, 100⟩ wsInit
      [.connect, .onError, .onClose, .timerFire, .onError, .onClose,
       .timerFire, .onError, .onClose, .timerFire, .onError, .onClose] ≤ 3
    ∧ attemptReconnect ⟨3, 100⟩ ⟨none, 3, false, false, false⟩ =
        (⟨none, 3, false, false, false⟩, none) :=
  c1_reconnect_cap 3 100 (by decide)
    [.connect, .onError, .onClose, .timerFire, .onError, .onClose,
     .timerFire, .onError, .onClose, .timerFire, .onError, .onClose]
    (by decide) ⟨none, 3, false, false, false⟩ (by decide)

/-- After a manual close (manual-close flag set, no pending timer), every
event other than an explicit `connect` keeps the flag set, keeps the timer
clear, and does not schedule a reconnect (never increments the counter). -/
theorem wsStep_preserve_closed (o : WsOptions) (s : WsState) (e : WsEvent)
    (hm : s.manualClose = true) (ht : s.reconnectTimer = false)
    (he : e ≠ WsEvent.connect) :
    (wsStep o s e).manualClose = true
    ∧ (wsStep o s e).reconnectTimer = false
    ∧ (wsStep o s e).reconnectCount ≠ s.reconnectCount + 1 := by
  cases e with
  | connect => exact absurd rfl he
  | onOpen =>
    refine ⟨hm, ht, ?_⟩
    show ¬(0 = s.reconnectCount + 1)
    omega
  | onClose =>
    have hred : wsStep o s WsEvent.onClose =
        { s with isConnecting := false,
                 socket := s.socket.map (fun _ => ReadyState.CLOSED) } := by
      show (let s1 : WsState := _;
            if s1.manualClose = true then s1 else (attemptReconnect o s1).1) = _
      dsimp only
      rw [if_pos hm]
    rw [hred]
    refine ⟨hm, ht, ?_⟩
    show ¬(s.reconnectCount = s.reconnectCount + 1)
    omega
  | onError =>
    have hred : wsStep o s WsEvent.onError =
        (if s.isConnecting = true then { s with isConnecting := false } else s) := rfl
    rw [hred]
    split
    · refine ⟨hm, ht, ?_⟩
      show ¬(s.reconnectCount = s.reconnectCount + 1)
      omega
    · refine ⟨hm, ht, ?_⟩
      show ¬(s.reconnectCount = s.reconnectCount + 1)
      omega
  | timerFire =>
    have hred : wsStep o s WsEvent.timerFire = s := by
      show (if s.reconnectTimer = true then
              connectStep { s with reconnectTimer := false } else s) = s
      rw [if_neg (by rw [ht]; exact Bool.false_ne_true)]
    rw [hred]
    refine ⟨hm, ht, ?_⟩
    show ¬(s.reconnectCount = s.reconnectCount + 1)
    omega
  | close =>
    refine ⟨rfl, rfl, ?_⟩
    show ¬(s.reconnectCount = s.reconnectCount + 1)
    omega

/-- After a manual close, no event sequence without an explicit `connect`
schedules any reconnect attempt. -/
theorem schedCount_zero_of_closed (o : WsOptions) (es : List WsEvent) (s : WsState)
    (hm : s.manualClose = true) (ht : s.reconnectTimer = false)
    (hes : WsEvent.connect ∉ es) : schedCount o s es = 0 := by
  induction es generalizing s with
  | nil => rfl
  | cons e es ih =>
    have he : e ≠ WsEvent.connect := fun hh => hes (hh ▸ List.mem_cons_self e es)
    obtain ⟨hm2, ht2, hc⟩ := wsStep_preserve_closed o s e hm ht he
    unfold schedCount
    rw [if_neg hc, ih _ hm2 ht2 (fun hh => hes (List.mem_cons_of_mem e hh))]

/-- C5: `close()` cancels any pending reconnect timer and marks the close as
manual, after which no automatic reconnect attempt is ever scheduled until
`connect()` is explicitly called again; and the reconnect counter is reset
to zero only by a successful open — `close()` leaves it unchanged and no
other event (in particular no failed attempt) ever lowers it. -/
theorem c5_close_authoritative (o : WsOptions) (s s2 : WsState)
    (es : List WsEvent) (e : WsEvent)
    (hes : WsEvent.connect ∉ es) (he : e ≠ WsEvent.onOpen) :
    (wsStep o s WsEvent.close).reconnectTimer = false
    ∧ (wsStep o s WsEvent.close).manualClose = true
    ∧ (wsStep o s WsEvent.close).reconnectCount = s.reconnectCount
    ∧ schedCount o (wsStep o s WsEvent.close) es = 0
    ∧ s2.reconnectCount ≤ (wsStep o s2 e).reconnectCount
    ∧ (wsStep o s2 WsEvent.onOpen).reconnectCount = 0 := by
  refine ⟨rfl, rfl, rfl, ?_, ?_, rfl⟩
  · exact schedCount_zero_of_closed o es _ rfl rfl hes
  · rcases wsStep_count_cases o s2 e he with hc | hc <;> omega

/-- Witness for C5 at a concrete state with a pending timer: closing clears
the timer, keeps the counter at 2, and the subsequent close/timer/error
events schedule nothing. -/
theorem c5_close_authoritative_witness :
    (wsStep ⟨3, 100⟩ ⟨some ReadyState.OPEN, 2, true, false, false⟩ WsEvent.close).reconnectTimer = false
    ∧ (wsStep ⟨3, 100⟩ ⟨some ReadyState.OPEN, 2, true, false, false⟩ WsEvent.close).manualClose = true
    ∧ (wsStep ⟨3, 100⟩ ⟨some ReadyState.OPEN, 2, true, false, false⟩ WsEvent.close).reconnectCount = 2
    ∧ schedCount ⟨3, 100⟩
        (wsStep ⟨3, 100⟩ ⟨some ReadyState.OPEN, 2, true, false, false⟩ WsEvent.close)
        [.onClose, .timerFire, .onError] = 0
    ∧ (⟨none, 1, false, false, false⟩ : WsState).reconnectCount ≤
        (wsStep ⟨3, 100⟩ ⟨none, 1, false, false, false⟩ WsEvent.onClose).reconnectCount
    ∧ (wsStep ⟨3, 100⟩ ⟨none, 1, false, false, false⟩ WsEvent.onOpen).reconnectCount = 0 :=
  c5_close_authoritative ⟨3, 100⟩ ⟨some ReadyState.OPEN, 2, true, false, false⟩
    ⟨none, 1, false, false, false⟩ [.onClose, .timerFire, .onError] WsEvent.onClose
    (by decide) (by decide)
